import Mathlib

/-!
Verification of the Move unit-test runner core
(crates/move-unit-test: test_runner.rs and test_reporter.rs).

The development shallowly embeds the data model and the per-test
adjudication logic of the runner:

* status codes, error locations and Move errors are modelled by
  inductives mirroring the Rust enums (the large external StatusCode
  enum is collapsed to the three codes the runner inspects plus a
  generic numbered constructor, so that equality tests are faithful);
* machine integers (u64 gas values, abort codes) are modelled as Nat;
  checked_sub is modelled explicitly with Option;
* a Rust panic (assert!, .unwrap()) is modelled by the value none of an
  Option-typed result, and graceful completion by some;
* BTreeMap and BTreeSet values are modelled extensionally (Rust
  equality on both is extensional in the key/element contents): a map
  becomes a function into Option, a set becomes a Finset; where the
  code iterates a map and folds (summarize), the model consumes the
  iteration view as an association list.
-/

namespace MoveUnitTest

/-- Major VM status codes. The runner compares the major status only
against EXECUTED, OUT_OF_GAS and ABORTED; every other status code is
represented by the numbered constructor. -/
inductive StatusCode where
  | EXECUTED : StatusCode
  | OUT_OF_GAS : StatusCode
  | ABORTED : StatusCode
  | otherCode (n : Nat) : StatusCode
deriving DecidableEq, Repr

/-- Error locations (move-binary-format Location): undefined, script, or
a module identified here by a Nat key. -/
inductive Location where
  | Undefined : Location
  | Script : Location
  | Module (module_id : Nat) : Location
deriving DecidableEq, Repr

/-- MoveError (move-compiler ExpectedMoveError, re-exported by
test_reporter.rs): (major status, optional sub-status, location) with
componentwise equality. -/
structure MoveError where
  major_status : StatusCode
  sub_status : Option Nat
  location : Location
deriving DecidableEq, Repr

/-- ExpectedFailure annotations of a test case (move-compiler
unit_test::ExpectedFailure). -/
inductive ExpectedFailure where
  | Expected : ExpectedFailure
  | ExpectedWithError (expected_err : MoveError) : ExpectedFailure
  | ExpectedWithCodeDEPRECATED (code : Nat) : ExpectedFailure
deriving DecidableEq, Repr

/-- One frame of a VM stack trace: (module id, function definition
index, program counter), accessed as frame.0 / frame.1 / frame.2 in
test_reporter.rs. -/
structure Frame where
  module_id : Nat
  fdef_idx : Nat
  pc : Nat
deriving DecidableEq, Repr

/-- Execution state attached to a VMError: its stack trace. -/
structure ExecutionState where
  stack_trace : List Frame
deriving DecidableEq, Repr

/-- The VMError interface consumed by the runner: major_status,
sub_status, location, offsets (fdef index, code offset pairs) and the
optional execution state. -/
structure VMError where
  major_status : StatusCode
  sub_status : Option Nat
  location : Location
  offsets : List (Nat × Nat)
  exec_state : Option ExecutionState
deriving DecidableEq, Repr

/-- VMResult over serialized return values (Vec of Vec of u8, bytes
modelled as Nat). -/
inductive VMResult where
  | ok (return_values : List (List Nat)) : VMResult
  | error (err : VMError) : VMResult
deriving DecidableEq, Repr

/-- TestRunInfo (test_reporter.rs lines 65-70): function identifier,
elapsed time (Duration, modelled in nanoseconds) and instructions
executed. -/
structure TestRunInfo where
  function_ident : String
  elapsed_time : Nat
  instructions_executed : Nat
deriving DecidableEq, Repr

/-- FailureReason (test_reporter.rs lines 29-56), without the
cfg-gated solana-backend variants. -/
inductive FailureReason where
  | NoError (message : String) : FailureReason
  | WrongError (message : String) (expected : MoveError) (actual : MoveError) : FailureReason
  | WrongAbortDEPRECATED (message : String) (expected_code : Nat) (actual : MoveError) : FailureReason
  | UnexpectedError (message : String) (error : MoveError) : FailureReason
  | Timeout (message : String) : FailureReason
  | Mismatch (move_vm_return_values : VMResult) (stackless_vm_return_values : VMResult) : FailureReason
  | Property (details : String) : FailureReason
deriving DecidableEq, Repr

/-- Smart constructor FailureReason::no_error (test_reporter.rs line 96). -/
def FailureReason.no_error : FailureReason :=
  FailureReason.NoError "Test did not error as expected"

/-- Smart constructor FailureReason::wrong_error (line 100). -/
def FailureReason.wrong_error (expected actual : MoveError) : FailureReason :=
  FailureReason.WrongError "Test did not error as expected" expected actual

/-- Smart constructor FailureReason::wrong_abort_deprecated (line 108). -/
def FailureReason.wrong_abort_deprecated (expected : Nat) (actual : MoveError) : FailureReason :=
  FailureReason.WrongAbortDEPRECATED "Test did not abort with expected code" expected actual

/-- Smart constructor FailureReason::unexpected_error (line 116). -/
def FailureReason.unexpected_error (error : MoveError) : FailureReason :=
  FailureReason.UnexpectedError "Test was not expected to error" error

/-- Smart constructor FailureReason::timeout (line 120). -/
def FailureReason.timeout : FailureReason :=
  FailureReason.Timeout "Test timed out"

/-- Smart constructor FailureReason::mismatch (line 124); the Box
indirection of the Rust variant has no semantic content. -/
def FailureReason.mismatch (move_vm stackless_vm : VMResult) : FailureReason :=
  FailureReason.Mismatch move_vm stackless_vm

/-- Smart constructor FailureReason::property (line 134). -/
def FailureReason.property (details : String) : FailureReason :=
  FailureReason.Property details

/-- TestFailure (test_reporter.rs lines 58-63). -/
structure TestFailure where
  test_run_info : TestRunInfo
  vm_error : Option VMError
  failure_reason : FailureReason
deriving DecidableEq, Repr

/-- The streaming status line a test emits through TestOutput
(test_runner.rs lines 183-216): pass, fail or timeout. -/
inductive StatusLine where
  | PASS : StatusLine
  | FAIL : StatusLine
  | TIMEOUT : StatusLine
deriving DecidableEq, Repr

/-- What a single test contributes to the statistics: either
stats.test_success with its TestRunInfo or stats.test_failure with its
TestFailure. -/
inductive TestRecord where
  | pass (info : TestRunInfo) : TestRecord
  | fail (f : TestFailure) : TestRecord
deriving DecidableEq, Repr

/-- The outcome matcher: the per-test match on exec_result in
exec_module_tests_move_vm_and_stackless_vm (test_runner.rs lines
400-489).  Returns the emitted status line and the record added to the
statistics, or none when the code panics: the assert on line 404
(assert that the major status of an Err is not EXECUTED) is the only
panic on this path.  The guard of the ExpectedWithCodeDEPRECATED arm,
written in the source as: the major status equals ABORTED, and the
sub-status is_some, and its unwrap equals the code, is rendered as the
equivalent conjunction that the sub-status equals some code. -/
def matchOutcome (expected_failure : Option ExpectedFailure)
    (exec_result : VMResult) (test_run_info : TestRunInfo) :
    Option (StatusLine × TestRecord) :=
  match exec_result with
  | VMResult.error err =>
    let actual_err : MoveError :=
      ⟨err.major_status, err.sub_status, err.location⟩
    if err.major_status = StatusCode.EXECUTED then
      none
    else
      some (match expected_failure with
      | some ExpectedFailure.Expected =>
        (StatusLine.PASS, TestRecord.pass test_run_info)
      | some (ExpectedFailure.ExpectedWithError expected_err) =>
        if expected_err = actual_err then
          (StatusLine.PASS, TestRecord.pass test_run_info)
        else
          (StatusLine.FAIL, TestRecord.fail
            ⟨test_run_info, some err,
             FailureReason.wrong_error expected_err actual_err⟩)
      | some (ExpectedFailure.ExpectedWithCodeDEPRECATED code) =>
        if actual_err.major_status = StatusCode.ABORTED ∧
            actual_err.sub_status = some code then
          (StatusLine.PASS, TestRecord.pass test_run_info)
        else
          (StatusLine.FAIL, TestRecord.fail
            ⟨test_run_info, some err,
             FailureReason.wrong_abort_deprecated code actual_err⟩)
      | none =>
        if err.major_status = StatusCode.OUT_OF_GAS then
          (StatusLine.TIMEOUT, TestRecord.fail
            ⟨test_run_info, some err, FailureReason.timeout⟩)
        else
          (StatusLine.FAIL, TestRecord.fail
            ⟨test_run_info, some err,
             FailureReason.unexpected_error actual_err⟩))
  | VMResult.ok _ =>
    some (if expected_failure.isSome then
      (StatusLine.FAIL, TestRecord.fail
        ⟨test_run_info, none, FailureReason.no_error⟩)
    else
      (StatusLine.PASS, TestRecord.pass test_run_info))

/-- The full per-test body of
exec_module_tests_move_vm_and_stackless_vm (test_runner.rs lines
362-489) once the two VM executions have produced their results: when
check_stackless_vm is set, first compare the adapted Move VM result
against the stackless VM result (recording Mismatch and skipping the
matcher on inequality), then consult the property-check report
(recording Property and skipping the matcher), and only then fall
through to the outcome matcher.  The external adapter
adapt_move_vm_result (move-stackless-bytecode-interpreter bridge) is a
parameter. -/
def execTestDual (adapt_move_vm_result : VMResult → VMResult)
    (check_stackless_vm : Bool) (expected_failure : Option ExpectedFailure)
    (exec_result : VMResult) (test_run_info : TestRunInfo)
    (stackless_vm_result : VMResult) (prop_check_result : Option String) :
    Option (StatusLine × TestRecord) :=
  if check_stackless_vm then
    let move_vm_result := adapt_move_vm_result exec_result
    if stackless_vm_result ≠ move_vm_result then
      some (StatusLine.FAIL, TestRecord.fail
        ⟨test_run_info, none,
         FailureReason.mismatch move_vm_result stackless_vm_result⟩)
    else
      match prop_check_result with
      | some prop_failure =>
        some (StatusLine.FAIL, TestRecord.fail
          ⟨test_run_info, none, FailureReason.property prop_failure⟩)
      | none => matchOutcome expected_failure exec_result test_run_info
  else
    matchOutcome expected_failure exec_result test_run_info

/-- Substring test on lists of characters: does the haystack have the
needle as a prefix? Models str::contains through the list of chars. -/
def charListHasPref : List Char → List Char → Bool
  | [], _ => true
  | _ :: _, [] => false
  | a :: as, b :: bs => a = b && charListHasPref as bs

/-- Substring containment on lists of characters. -/
def charListHasSub (needle : List Char) : List Char → Bool
  | [] => needle.isEmpty
  | c :: rest => charListHasPref needle (c :: rest) || charListHasSub needle rest

/-- Rust str::contains (substring containment), used by
TestRunner::filter. -/
def strContains (hay needle : String) : Bool :=
  charListHasSub needle.toList hay.toList

/-- TestCase (move-compiler unit_test): the arguments (values modelled
as Nat) and the optional expected failure. -/
structure TestCase where
  arguments : List Nat
  expected_failure : Option ExpectedFailure
deriving DecidableEq, Repr

/-- ModuleTestPlan: the module (its name, as used by filter and the
status lines) and the ordered mapping from test name to test case,
taken in iteration order. -/
structure ModuleTestPlan where
  module_name : String
  tests : List (String × TestCase)
deriving DecidableEq, Repr

/-- The body of TestRunner::filter for one module (test_runner.rs lines
159-172): a module whose name contains the slice keeps all its tests;
otherwise only the tests whose fully qualified name
module_name::test_name contains the slice are retained. -/
def filterModuleTest (test_name_slice : String) (module_test : ModuleTestPlan) :
    ModuleTestPlan :=
  if strContains module_test.module_name test_name_slice then
    module_test
  else
    { module_test with
      tests := module_test.tests.filter fun t =>
        strContains (module_test.module_name ++ "::" ++ t.1) test_name_slice }

/-- TestRunner::filter (test_runner.rs lines 158-174) over the
iteration view of tests.module_tests. -/
def filterPlan (test_name_slice : String) (module_tests : List ModuleTestPlan) :
    List ModuleTestPlan :=
  module_tests.map (filterModuleTest test_name_slice)

/-- u64::checked_sub: none models the panic of the .unwrap() a caller
may put on it. -/
def checkedSub (a b : Nat) : Option Nat :=
  if b ≤ a then some (a - b) else none

/-- The instructions_executed computation of execute_via_move_vm
(test_runner.rs lines 265-274): the configured execution bound minus
the gas remaining in the meter after execution, through checked_sub and
an unwrap (none = panic). -/
def instructionsExecuted (execution_bound remaining_gas : Nat) : Option Nat :=
  checkedSub execution_bound remaining_gas

/-- The merge a BTreeMap entry undergoes in TestStatistics::combine:
self.entry(k).or_default().extend(other-value).  Absent on both sides
stays absent; an entry present on one side alone keeps (or receives,
through or_default of the empty value and extend) that side's value;
present on both sides, the values merge. -/
def entryExtend (merge : α → α → α) (self_entry other_entry : Option α) : Option α :=
  match self_entry, other_entry with
  | some a, some b => some (merge a b)
  | some a, none => some a
  | none, b => b

/-- Extension of the inner per-module output map (BTreeMap from test
name to String): BTreeMap::extend inserts every pair of the other map,
overriding the entries of self on key collisions. -/
def extendOutput (self other : String → Option String) : String → Option String :=
  fun test_name =>
    match other test_name with
    | some v => some v
    | none => self test_name

/-- TestStatistics (test_reporter.rs lines 72-77): passed and failed
tests keyed by module id (BTreeMap modelled extensionally as a function
into Option, BTreeSet as a Finset), plus the per-test textual output
map. -/
structure TestStatistics where
  passed : Nat → Option (Finset TestRunInfo)
  failed : Nat → Option (Finset TestFailure)
  output : Nat → Option (String → Option String)

/-- TestStatistics::new (test_reporter.rs line 382). -/
def TestStatistics.new : TestStatistics :=
  { passed := fun _ => none, failed := fun _ => none, output := fun _ => none }

/-- TestStatistics::combine (test_reporter.rs lines 411-425): for each
of the three maps, every entry of other is folded into self through
entry(k).or_default().extend(v); extensionally, each key merges the two
sides pointwise (set union for passed and failed, right-biased map
extension for output). -/
def TestStatistics.combine (self other : TestStatistics) : TestStatistics where
  passed := fun module_id =>
    entryExtend (fun a b => a ∪ b) (self.passed module_id) (other.passed module_id)
  failed := fun module_id =>
    entryExtend (fun a b => a ∪ b) (self.failed module_id) (other.failed module_id)
  output := fun module_id =>
    entryExtend extendOutput (self.output module_id) (other.output module_id)

/-- Two statistics are disjoint per module when no module id carries
data in both: the situation of the parallel reduction, where each
worker owns whole modules. -/
def DisjointStats (a b : TestStatistics) : Prop :=
  (∀ m, a.passed m = none ∨ b.passed m = none) ∧
  (∀ m, a.failed m = none ∨ b.failed m = none) ∧
  (∀ m, a.output m = none ∨ b.output m = none)

/-- The failed-test count of TestResults::summarize (test_reporter.rs
lines 575-579), folding the lengths of the per-module failure sets
over the iteration view of the failed map. -/
def numFailedTests (failed : List (Nat × List TestFailure)) : Nat :=
  failed.foldl (fun acc mf => acc + mf.2.length) 0

/-- The Boolean TestResults::summarize returns (test_reporter.rs line
623): num_failed_tests equals zero.  The writes to the writer do not
affect the returned value. -/
def summarizeReturn (failed : List (Nat × List TestFailure)) : Bool :=
  numFailedTests failed == 0

/-- Source location (move-ir-types Loc): file hash and byte span. -/
structure Loc where
  file_hash : Nat
  start_pos : Nat
  end_pos : Nat
deriving DecidableEq, Repr

/-- The function source map interface the reporter consumes:
get_code_location by code offset, and the definition location. -/
structure FunctionSourceMap where
  code_locations : Nat → Option Loc
  definition_location : Loc

/-- The per-module information the reporter consumes from the test
plan: get_function_source_map by function definition index (none
models its Err), and the function name resolution chain
function_def_at / function_handle_at / identifier_at. -/
structure NamedCompiledModule where
  source_map : Nat → Option FunctionSourceMap
  function_names : Nat → String

/-- The TestPlan interface the reporter consumes: module_info lookup by
module id, module names for rendering, and the file-hash map to
(file name, source text). -/
structure TestPlanInfo where
  module_info : Nat → Option NamedCompiledModule
  module_names : Nat → String
  files : Nat → Option (String × String)

/-- Modelled from the spec: source-level line and column lookup
(TestFailure::get_line_number and the codespan files machinery) is
out-of-scope diagnostic rendering; faithful to the code only in that a
missing file hash, like any lookup error, degrades to the
no_source_line placeholder and never panics. -/
def getLineNumber (plan : TestPlanInfo) (loc : Loc) : String :=
  match plan.files loc.file_hash with
  | none => "no_source_line"
  | some _ => toString loc.start_pos

/-- Modelled from the spec: the external diagnostic renderer
(move-compiler diagnostics, report_diagnostics_to_buffer) that formats
the source-mapped diagnostic built in report_error_with_location; the
string content is opaque to the claims, the arguments are the data the
code feeds it. -/
def renderDiag (plan : TestPlanInfo) (module_id : Nat) (base_message : String)
    (loc : Loc) (definition_location : Loc) : String :=
  "diagnostic at " ++ getLineNumber plan loc ++ " and " ++
    getLineNumber plan definition_location ++ " in module " ++
    plan.module_names module_id ++ ": " ++ base_message

/-- The frame loop of TestFailure::report_exec_state (test_reporter.rs
lines 277-307), threading the accumulated buffer: a failed module
lookup or a failed get_function_source_map returns early with a
placeholder replacing the whole buffer; a failed get_code_location is
an unwrap, i.e. a panic, modelled by none. -/
def reportExecStateGo (plan : TestPlanInfo) : List Frame → String → Option String
  | [], buf => some buf
  | frame :: rest, buf =>
    match plan.module_info frame.module_id with
    | none => some "\tmalformed stack trace (no module)"
    | some named_module =>
      match named_module.source_map frame.fdef_idx with
      | none => some "\tmalformed stack trace (no source map)"
      | some function_source_map =>
        match function_source_map.code_locations frame.pc with
        | none => none
        | some loc =>
          let fn_name := named_module.function_names frame.fdef_idx
          let file_name :=
            match plan.files loc.file_hash with
            | some v => v.1
            | none => "unknown_source"
          reportExecStateGo plan rest
            (buf ++ "\t" ++ plan.module_names frame.module_id ++ "::" ++
              fn_name ++ "(" ++ file_name ++ ":" ++ getLineNumber plan loc ++ ")\n")

/-- TestFailure::report_exec_state (test_reporter.rs lines 265-310):
an empty stack trace yields the empty buffer, otherwise the frames are
rendered behind the stack trace header.  none models a panic. -/
def reportExecState (plan : TestPlanInfo) (exec_state : ExecutionState) :
    Option String :=
  if exec_state.stack_trace.isEmpty then some ""
  else reportExecStateGo plan exec_state.stack_trace "stack trace\n"

/-- TestFailure::report_error_with_location (test_reporter.rs lines
312-372).  With no VMError the base message is returned.  Otherwise,
for a Module location, the first entry of offsets leads through the
source map to a diagnostic; an empty offsets list or a failed module or
function-source-map lookup fall back to the base message (the closure's
question-mark operators), while a failed get_code_location is an unwrap,
i.e. a panic, modelled by none.  Finally a present exec_state appends
the rendered stack trace when non-empty. -/
def reportErrorWithLocation (plan : TestPlanInfo) (base_message : String)
    (vm_error : Option VMError) : Option String :=
  match vm_error with
  | none => some base_message
  | some ve =>
    let diags : Option (Option String) :=
      match ve.location with
      | Location.Module module_id =>
        match ve.offsets.head? with
        | none => some none
        | some (fdef_idx, offset) =>
          match plan.module_info module_id with
          | none => some none
          | some named_module =>
            match named_module.source_map fdef_idx with
            | none => some none
            | some function_source_map =>
              match function_source_map.code_locations offset with
              | none => none
              | some loc =>
                some (some (renderDiag plan module_id base_message loc
                  function_source_map.definition_location))
      | _ => some none
    match diags with
    | none => none
    | some diagString =>
      let rendered := diagString.getD base_message
      match ve.exec_state with
      | none => some rendered
      | some exec_state =>
        match reportExecState plan exec_state with
        | none => none
        | some exec_state_str =>
          some (if exec_state_str.isEmpty then rendered
            else rendered ++ "\n" ++ exec_state_str)

/-- Modelled from the spec: ExpectedMoveError::verbiage lives in the
external move-compiler crate (source-level diagnostic rendering is out
of scope); the rendered string is opaque to the claims. -/
def MoveError.verbiage (e : MoveError) (is_past_tense : Bool) : String :=
  (if is_past_tense then "gave " else "to give ") ++ toString (repr e.major_status) ++
    (match e.sub_status with
     | some code => " with sub-status " ++ toString code
     | none => "")

/-- Modelled from the spec: StatusCode::status_type classification
(external move-core-types); EXECUTED, OUT_OF_GAS and ABORTED are
execution statuses, so their prefix is empty, and the collapsed
otherCode constructor carries the unknown-status banner. -/
def unexpectedErrorBanner : StatusCode → String
  | StatusCode.EXECUTED => ""
  | StatusCode.OUT_OF_GAS => ""
  | StatusCode.ABORTED => ""
  | StatusCode.otherCode _ => "INTERNAL TEST ERROR: UNKNOWN ERROR.\n"

/-- Debug formatting of a VMResult payload in the Mismatch block. -/
def vmResultDebug (r : VMResult) : String :=
  toString (repr r)

/-- TestFailure::render_error (test_reporter.rs lines 162-235): the
NoError, Timeout, Mismatch and Property reasons render their message
directly; the WrongError, WrongAbortDEPRECATED and UnexpectedError
reasons build a base message and pass it with the failure's vm_error
through report_error_with_location.  none models a panic. -/
def TestFailure.render_error (f : TestFailure) (plan : TestPlanInfo) :
    Option String :=
  match f.failure_reason with
  | FailureReason.NoError message => some message
  | FailureReason.Timeout message => some message
  | FailureReason.WrongError message expected actual =>
    reportErrorWithLocation plan
      (message ++ ". Expected test " ++ expected.verbiage false ++
        " but instead it " ++ actual.verbiage true ++ " rooted here")
      f.vm_error
  | FailureReason.WrongAbortDEPRECATED message expected_code actual =>
    reportErrorWithLocation plan
      (message ++ ". Expected test to abort with code " ++ toString expected_code ++
        ", but instead it " ++ actual.verbiage true ++ " rooted here")
      f.vm_error
  | FailureReason.UnexpectedError message error =>
    reportErrorWithLocation plan
      (unexpectedErrorBanner error.major_status ++ message ++ ", but it " ++
        error.verbiage true ++ " rooted here")
      f.vm_error
  | FailureReason.Mismatch move_vm_return_values stackless_vm_return_values =>
    some ("Executions via Move VM [M] and stackless VM [S] yield different results.\n" ++
      "[M] - return values: " ++ vmResultDebug move_vm_return_values ++ "\n" ++
      "[S] - return values: " ++ vmResultDebug stackless_vm_return_values ++ "\n")
  | FailureReason.Property message => some message

/-- Discriminator for the two cross-backend failure reasons. -/
def FailureReason.isMismatchOrProperty : FailureReason → Bool
  | FailureReason.Mismatch _ _ => true
  | FailureReason.Property _ => true
  | _ => false

/-- Concrete statistics for witnesses: one passed test in module 0. -/
def statsA : TestStatistics :=
  { passed := fun m => if m = 0 then some {⟨"a", 1, 2⟩} else none,
    failed := fun _ => none,
    output := fun _ => none }

/-- Concrete statistics for witnesses: one passed test in module 1. -/
def statsB : TestStatistics :=
  { passed := fun m => if m = 1 then some {⟨"b", 3, 4⟩} else none,
    failed := fun _ => none,
    output := fun _ => none }

/-- Concrete statistics for witnesses: empty. -/
def statsC : TestStatistics :=
  TestStatistics.new

/-! Helper lemmas. -/

/-- Merging map entries is symmetric whenever one side is absent. -/
theorem entryExtend_none_comm (merge : α → α → α) (a b : Option α)
    (h : a = none ∨ b = none) :
    entryExtend merge a b = entryExtend merge b a := by
  rcases h with h | h <;> subst h
  · cases b <;> rfl
  · cases a <;> rfl

/-- Merging map entries is associative when the value merge is. -/
theorem entryExtend_assoc (merge : α → α → α)
    (hm : ∀ x y z, merge (merge x y) z = merge x (merge y z))
    (a b c : Option α) :
    entryExtend merge (entryExtend merge a b) c =
      entryExtend merge a (entryExtend merge b c) := by
  cases a <;> cases b <;> cases c <;> simp [entryExtend, hm]

/-- Right-biased extension of the inner output map is associative. -/
theorem extendOutput_assoc (a b c : String → Option String) :
    extendOutput (extendOutput a b) c = extendOutput a (extendOutput b c) := by
  funext t
  simp only [extendOutput]
  cases c t <;> cases b t <;> rfl

/-- Folding lengths starting from an accumulator is the accumulator
plus the sum of lengths. -/
theorem foldl_add_length (l : List (Nat × List TestFailure)) (n : Nat) :
    l.foldl (fun acc mf => acc + mf.2.length) n =
      n + (l.map fun mf => mf.2.length).sum := by
  induction l generalizing n with
  | nil => simp
  | cons mf rest ih => simp [ih, Nat.add_assoc]

/-- Filtering one module plan is idempotent: the second pass sees the
same module name and filters an already filtered test list with the
same predicate. -/
theorem filterModuleTest_idempotent (s : String) (mt : ModuleTestPlan) :
    filterModuleTest s (filterModuleTest s mt) = filterModuleTest s mt := by
  unfold filterModuleTest
  by_cases h : strContains mt.module_name s
  · simp [h]
  · simp [h, List.filter_filter]

/-- The outcome matcher never records a Mismatch or Property failure:
those reasons arise only on the cross-backend path. -/
theorem matchOutcome_reason_not_cross (expected_failure : Option ExpectedFailure)
    (exec_result : VMResult) (info : TestRunInfo) (line : StatusLine)
    (f : TestFailure)
    (h : matchOutcome expected_failure exec_result info = some (line, TestRecord.fail f)) :
    f.failure_reason.isMismatchOrProperty = false := by
  unfold matchOutcome at h
  rcases exec_result with rv | err
  · rcases expected_failure with _ | ef
    · simp at h
    · simp at h
      rcases h with ⟨h1, h2⟩
      subst h2
      rfl
  · by_cases hexec : err.major_status = StatusCode.EXECUTED
    · simp [hexec] at h
    · rcases expected_failure with _ | ef
      · by_cases hg : err.major_status = StatusCode.OUT_OF_GAS
        · simp [hexec, hg] at h
          rcases h with ⟨h1, h2⟩
          subst h2
          rfl
        · simp [hexec, hg] at h
          rcases h with ⟨h1, h2⟩
          subst h2
          rfl
      · rcases ef with _ | e | c
        · simp [hexec] at h
        · by_cases he : e = ⟨err.major_status, err.sub_status, err.location⟩
          · simp [hexec, he] at h
          · simp [hexec, he] at h
            rcases h with ⟨h1, h2⟩
            subst h2
            rfl
        · by_cases hc : err.major_status = StatusCode.ABORTED ∧ err.sub_status = some c
          · simp [hexec, hc] at h
          · simp [hexec, hc] at h
            rcases h with ⟨h1, h2⟩
            subst h2
            rfl

/-! Claim theorems. -/

/-- C1: when the primary-VM execution returns Ok, the outcome matcher
records the test as passed when the declared expectation is None, and
as failed with reason NoError when any ExpectedFailure variant is
declared (with a FAIL status line). -/
theorem ok_result_outcome (return_values : List (List Nat)) (info : TestRunInfo) :
    matchOutcome none (VMResult.ok return_values) info =
      some (StatusLine.PASS, TestRecord.pass info) ∧
    ∀ ef : ExpectedFailure,
      matchOutcome (some ef) (VMResult.ok return_values) info =
        some (StatusLine.FAIL, TestRecord.fail ⟨info, none, FailureReason.no_error⟩) := by
  exact ⟨rfl, fun ef => rfl⟩

/-- C2: when the declared expectation is None and the primary-VM
execution returns an error with major status OUT_OF_GAS, the recorded
failure reason is Timeout (and therefore never UnexpectedError) and
the streaming status line is TIMEOUT. -/
theorem out_of_gas_timeout (err : VMError) (info : TestRunInfo)
    (h : err.major_status = StatusCode.OUT_OF_GAS) :
    matchOutcome none (VMResult.error err) info =
      some (StatusLine.TIMEOUT, TestRecord.fail
        ⟨info, some err, FailureReason.timeout⟩) := by
  unfold matchOutcome
  simp [h]

/-- Witness for C2 at a concrete out-of-gas error. -/
theorem out_of_gas_timeout_witness :
    matchOutcome none
      (VMResult.error ⟨StatusCode.OUT_OF_GAS, none, Location.Undefined, [], none⟩)
      ⟨"t4", 3, 1⟩ =
    some (StatusLine.TIMEOUT, TestRecord.fail
      ⟨⟨"t4", 3, 1⟩,
       some ⟨StatusCode.OUT_OF_GAS, none, Location.Undefined, [], none⟩,
       FailureReason.timeout⟩) :=
  out_of_gas_timeout ⟨StatusCode.OUT_OF_GAS, none, Location.Undefined, [], none⟩
    ⟨"t4", 3, 1⟩ rfl

/-- C3: for a test declared ExpectedWithCode(code) whose primary-VM
execution returns an error, the test is recorded as passed if and only
if the major status is ABORTED and the sub-status is present and
equals code; in every other error case it is recorded as failed with
reason WrongAbortCode carrying code and the actual MoveError.  The
hypothesis that the major status is not EXECUTED is the precondition
the code itself asserts on every error (test_runner.rs line 404). -/
theorem expected_with_code_outcome (code : Nat) (err : VMError) (info : TestRunInfo)
    (hne : err.major_status ≠ StatusCode.EXECUTED) :
    (matchOutcome (some (ExpectedFailure.ExpectedWithCodeDEPRECATED code))
        (VMResult.error err) info =
      some (StatusLine.PASS, TestRecord.pass info) ↔
      err.major_status = StatusCode.ABORTED ∧ err.sub_status = some code) ∧
    (¬(err.major_status = StatusCode.ABORTED ∧ err.sub_status = some code) →
      matchOutcome (some (ExpectedFailure.ExpectedWithCodeDEPRECATED code))
          (VMResult.error err) info =
        some (StatusLine.FAIL, TestRecord.fail
          ⟨info, some err, FailureReason.wrong_abort_deprecated code
            ⟨err.major_status, err.sub_status, err.location⟩⟩)) := by
  unfold matchOutcome
  by_cases h : err.major_status = StatusCode.ABORTED ∧ err.sub_status = some code
  · simp [hne, h]
  · simp [hne, h]

/-- Witness for C3 at a concrete matching abort. -/
theorem expected_with_code_outcome_witness :
    matchOutcome (some (ExpectedFailure.ExpectedWithCodeDEPRECATED 42))
      (VMResult.error ⟨StatusCode.ABORTED, some 42, Location.Script, [], none⟩)
      ⟨"t2", 5, 7⟩ =
    some (StatusLine.PASS, TestRecord.pass ⟨"t2", 5, 7⟩) :=
  (expected_with_code_outcome 42
    ⟨StatusCode.ABORTED, some 42, Location.Script, [], none⟩
    ⟨"t2", 5, 7⟩ (by decide)).1.mpr (by exact ⟨rfl, rfl⟩)

/-- C4: in dual-backend mode, whenever the canonicalized primary-VM
result differs from the reference-VM result the test is recorded as
failed with reason Mismatch holding both results, and the outcome
matcher is not consulted: the recorded result is independent of the
declared expectation. -/
theorem mismatch_skips_matcher (adapt : VMResult → VMResult)
    (expected_failure expected_failure2 : Option ExpectedFailure)
    (exec_result : VMResult) (info : TestRunInfo)
    (stackless_vm_result : VMResult) (prop_check_result : Option String)
    (h : stackless_vm_result ≠ adapt exec_result) :
    execTestDual adapt true expected_failure exec_result info
        stackless_vm_result prop_check_result =
      some (StatusLine.FAIL, TestRecord.fail
        ⟨info, none,
         FailureReason.mismatch (adapt exec_result) stackless_vm_result⟩) ∧
    execTestDual adapt true expected_failure exec_result info
        stackless_vm_result prop_check_result =
      execTestDual adapt true expected_failure2 exec_result info
        stackless_vm_result prop_check_result := by
  unfold execTestDual
  simp [h]

/-- Witness for C4 at concrete differing results. -/
theorem mismatch_skips_matcher_witness :
    execTestDual (fun r => r) true none (VMResult.ok [[1]]) ⟨"t5", 2, 3⟩
        (VMResult.ok [[2]]) none =
      some (StatusLine.FAIL, TestRecord.fail
        ⟨⟨"t5", 2, 3⟩, none,
         FailureReason.mismatch (VMResult.ok [[1]]) (VMResult.ok [[2]])⟩) :=
  (mismatch_skips_matcher (fun r => r) none (some ExpectedFailure.Expected)
    (VMResult.ok [[1]]) ⟨"t5", 2, 3⟩ (VMResult.ok [[2]]) none (by decide)).1

/-- C5 counterexample: an Err whose major status is EXECUTED does not
degrade gracefully: the assert on test_runner.rs line 404 fires, the
engine panics (modelled by none) and no failure is classified. -/
theorem executed_error_asserts :
    matchOutcome none
      (VMResult.error ⟨StatusCode.EXECUTED, none, Location.Undefined, [], none⟩)
      ⟨"t", 0, 0⟩ = none := rfl

/-- C5 amended: empty offsets and a source-map lookup failure on a
stack-trace frame degrade gracefully (base message kept, placeholder
emitted, no panic), but an Err whose major status is EXECUTED triggers
an assertion failure (a panic, modelled by none) rather than graceful
degradation. -/
theorem graceful_degradation_amended :
    (∀ (expected_failure : Option ExpectedFailure) (err : VMError) (info : TestRunInfo),
      err.major_status = StatusCode.EXECUTED →
      matchOutcome expected_failure (VMResult.error err) info = none) ∧
    (∀ (plan : TestPlanInfo) (base_message : String) (ve : VMError),
      ve.offsets = [] → ve.exec_state = none →
      reportErrorWithLocation plan base_message (some ve) = some base_message) ∧
    (∀ (plan : TestPlanInfo) (frame : Frame) (rest : List Frame)
       (nm : NamedCompiledModule),
      plan.module_info frame.module_id = some nm →
      nm.source_map frame.fdef_idx = none →
      reportExecState plan ⟨frame :: rest⟩ =
        some "\tmalformed stack trace (no source map)") := by
  refine ⟨?_, ?_, ?_⟩
  · intro ef err info h
    unfold matchOutcome
    simp [h]
  · intro plan base ve hoff hex
    unfold reportErrorWithLocation
    cases hl : ve.location <;> simp [hoff, hex, hl]
  · intro plan frame rest nm hmod hsm
    unfold reportExecState reportExecStateGo
    simp [hmod, hsm]

/-- C6: combining statistics is commutative on disjoint per-module
statistics and associative. -/
theorem combine_comm_assoc (A B C : TestStatistics) (h : DisjointStats A B) :
    A.combine B = B.combine A ∧
    (A.combine B).combine C = A.combine (B.combine C) := by
  obtain ⟨hp, hf, ho⟩ := h
  constructor
  · unfold TestStatistics.combine
    congr 1
    · funext m
      exact entryExtend_none_comm _ _ _ (hp m)
    · funext m
      exact entryExtend_none_comm _ _ _ (hf m)
    · funext m
      exact entryExtend_none_comm _ _ _ (ho m)
  · unfold TestStatistics.combine
    congr 1
    · funext m
      exact entryExtend_assoc _ (fun x y z => Finset.union_assoc x y z) _ _ _
    · funext m
      exact entryExtend_assoc _ (fun x y z => Finset.union_assoc x y z) _ _ _
    · funext m
      exact entryExtend_assoc _ (fun x y z => extendOutput_assoc x y z) _ _ _

/-- Witness for C6 at concrete disjoint statistics. -/
theorem combine_comm_assoc_witness :
    statsA.combine statsB = statsB.combine statsA ∧
    (statsA.combine statsB).combine statsC =
      statsA.combine (statsB.combine statsC) :=
  combine_comm_assoc statsA statsB statsC
    ⟨fun m => by by_cases h : m = 0 <;> simp [statsA, statsB, h],
     fun m => Or.inl rfl,
     fun m => Or.inl rfl⟩

/-- C7: summarize returns true if and only if the failed map records
no test failure in any module. -/
theorem summarize_true_iff_no_failures (failed : List (Nat × List TestFailure)) :
    summarizeReturn failed = true ↔ ∀ mf ∈ failed, mf.2 = [] := by
  unfold summarizeReturn numFailedTests
  rw [foldl_add_length, Nat.zero_add, beq_iff_eq, List.sum_eq_zero_iff]
  constructor
  · intro h mf hmf
    exact List.length_eq_zero.mp (h _ (List.mem_map_of_mem _ hmf))
  · intro h x hx
    obtain ⟨mf, hmf, rfl⟩ := List.mem_map.mp hx
    rw [h mf hmf]
    rfl

/-- C8: the instructions_executed of a primary-VM run is the execution
bound minus the remaining gas, hence bounded by the execution bound
(non-negativity is inherent to the u64/Nat value; the hypothesis is
the gas meter invariant that the remaining gas, seeded from the bound,
never exceeds it). -/
theorem instructions_executed_bounded (execution_bound remaining_gas : Nat)
    (h : remaining_gas ≤ execution_bound) :
    instructionsExecuted execution_bound remaining_gas =
      some (execution_bound - remaining_gas) ∧
    execution_bound - remaining_gas ≤ execution_bound := by
  constructor
  · unfold instructionsExecuted checkedSub
    rw [if_pos h]
  · exact Nat.sub_le _ _

/-- Witness for C8 at a concrete bound and remainder. -/
theorem instructions_executed_bounded_witness :
    instructionsExecuted 10 3 = some (10 - 3) ∧ 10 - 3 ≤ 10 :=
  instructions_executed_bounded 10 3 (by decide)

/-- C9: filter is idempotent: applying filter with the same substring
twice yields the same plan as applying it once. -/
theorem filter_idempotent (test_name_slice : String)
    (module_tests : List ModuleTestPlan) :
    filterPlan test_name_slice (filterPlan test_name_slice module_tests) =
      filterPlan test_name_slice module_tests := by
  unfold filterPlan
  rw [List.map_map]
  refine List.map_congr_left fun mt _ => ?_
  exact filterModuleTest_idempotent test_name_slice mt

/-- C10: every TestFailure the engine records with reason Mismatch or
Property has vm_error None, and rendering such a failure is
independent of the test plan: no source-mapped diagnostic or VM stack
trace is produced. -/
theorem cross_backend_failures_plain :
    (∀ (adapt : VMResult → VMResult) (check_stackless_vm : Bool)
       (expected_failure : Option ExpectedFailure) (exec_result : VMResult)
       (info : TestRunInfo) (stackless_vm_result : VMResult)
       (prop_check_result : Option String) (line : StatusLine) (f : TestFailure),
      execTestDual adapt check_stackless_vm expected_failure exec_result info
          stackless_vm_result prop_check_result = some (line, TestRecord.fail f) →
      f.failure_reason.isMismatchOrProperty = true →
      f.vm_error = none) ∧
    (∀ (f : TestFailure) (plan plan2 : TestPlanInfo),
      f.failure_reason.isMismatchOrProperty = true →
      TestFailure.render_error f plan = TestFailure.render_error f plan2) := by
  constructor
  · intro adapt cs ef er info sl pc line f h hreason
    unfold execTestDual at h
    by_cases hcs : cs = true
    · subst hcs
      simp only [if_true, reduceIte] at h
      by_cases hm : sl ≠ adapt er
      · rw [if_pos hm] at h
        simp only [Option.some.injEq, Prod.mk.injEq, TestRecord.fail.injEq] at h
        cases h.2
        rfl
      · rw [if_neg hm] at h
        rcases pc with _ | p
        · exact absurd hreason
            (by simp [matchOutcome_reason_not_cross ef er info line f h])
        · simp only [Option.some.injEq, Prod.mk.injEq, TestRecord.fail.injEq] at h
          cases h.2
          rfl
    · rw [if_neg hcs] at h
      exact absurd hreason
        (by simp [matchOutcome_reason_not_cross ef er info line f h])
  · intro f plan plan2 hreason
    rcases hr : f.failure_reason with m | _ | _ | _ | m | mv | d <;>
      simp [FailureReason.isMismatchOrProperty, hr] at hreason <;>
      simp [TestFailure.render_error, hr]

end MoveUnitTest
